import Mathlib

/-!
Verification of the pybeepop wrapper (src/pybeepop/pybeepop.py).

The development shallowly embeds the PyBeePop class: its platform dispatch at
construction time, the load/set/run/get/plot/exit methods, and the JSON
serialization used by get_output. External collaborators (the native BeePop+
library accessed through tools.BeePopModel, the plotting helper, the Python
json module) are modelled explicitly; every such definition carries a doc
comment saying so. Filesystem existence (os.path.isfile) and platform
detection (platform.system / platform.architecture) are supplied by an
environment record.

Python exceptions are modelled as an error type returned in Except; each
method takes and returns the object state, so partially-performed mutations
before a raise are visible in the returned state. Calls that cross into the
native library are recorded in a trace field of the state.
-/

namespace PyBeePopModel

/-- Scalar cell values of the tabular Run Output. Modelled from the spec:
the native library produces named columns of values (counts, dates); a value
is embedded as an integer or a string. -/
inductive Scalar where
  | str (v : String)
  | int (v : Int)
deriving DecidableEq

/-- The tabular Run Output in column-major form: the mapping from each column
name to its ordered list of values, exactly the shape produced by
DataFrame.to_dict with list orientation. -/
abbrev Table := List (String × List Scalar)

/-- DataFrame.columns of a column-major table. -/
def columnsOf (t : Table) : List String := t.map Prod.fst

/-- Python values that can be passed as the argument of set_parameters:
None, a dict of parameter assignments, a list, a string or a number. -/
inductive PyVal where
  | pynone
  | pydict (d : List (String × String))
  | pylist (l : List String)
  | pystr (v : String)
  | pyint (v : Int)
deriving DecidableEq

/-- isinstance(x, dict). -/
def PyVal.isDictB : PyVal → Bool
  | .pydict _ => true
  | _ => false

/-- Python exceptions raised by the wrapper. AttributeError carries the name
of the missing attribute. -/
inductive PyErr where
  | notImplementedError (msg : String)
  | fileNotFoundError (msg : String)
  | attributeError (attr : String)
  | typeError (msg : String)
  | runtimeError (msg : String)
  | indexError (msg : String)
deriving DecidableEq

/-- Calls the wrapper makes into the native BeePop+ library (methods of
tools.BeePopModel). The state records the trace of these calls. -/
inductive NativeCall where
  | openLib (path : String)
  | setParameters (arg : PyVal)
  | getParameters
  | loadWeather (path : String)
  | loadInputFile (path : String)
  | loadContamFile (path : String)
  | runBeepop
  | getErrors
  | getInfo
  | getVersion
  | closeLibrary
deriving DecidableEq

/-- The environment: platform detection results, which paths exist as files
(os.path.isfile), and the behaviour of the native library. Modelled from the
spec: the native library is an opaque collaborator; its run entry point
either produces a table or fails, and its getters return strings. -/
structure Env where
  osName : String
  arch : String
  parent : String
  files : List String
  runResult : Except String Table
  setParamsResult : PyVal → PyVal
  getParamsResult : PyVal
  versionStr : String
  errorLog : String
  infoLog : String

/-- The attribute state of a constructed PyBeePop object. beepopAlive is
false once `del self.beepop` has run in exit(). nativeCalls is the trace of
calls into the native library; stdout the lines printed so far. -/
structure St where
  lib_file : String
  verbose : Bool
  beepopAlive : Bool
  parameters : PyVal
  parameter_file : Option String
  weather_file : Option String
  residue_file : Option String
  output : Option Table
  nativeCalls : List NativeCall
  stdout : List String
deriving DecidableEq

/-- str.join with a separator, as Python ", ".join. -/
def joinSep (sep : String) : List String → String
  | [] => ""
  | [x] => x
  | x :: xs => x ++ sep ++ joinSep sep xs

/-- A single-quote character, used by Python repr of strings. -/
def squote : String := String.singleton (Char.ofNat 39)

/-- Python str() of a list of strings, as produced by "{}".format(lst):
each element shown in repr form with single quotes. -/
def pyReprStrList (l : List String) : String :=
  "[" ++ joinSep ", " (l.map (fun s => squote ++ s ++ squote)) ++ "]"

/-- os.path.join restricted to a relative second component. -/
def joinPath (a b : String) : String := a ++ "/" ++ b

/-- The verbose message printed in the Linux branch of the constructor
(whitespace condensed). -/
def linuxVerboseMsg : String :=
  "Running in Linux mode. Trying manylinux/musllinux version. Currently, only 64-bit architecture is supported."

/-- The FileNotFoundError message raised when the shared library path is not
a file (whitespace condensed). -/
def libNotFoundMsg : String :=
  "BeePop+ shared object library does not exist or is not compatible with your operating system. Currently, only 64-bit architecture is supported."

/-- Library-path resolution of PyBeePop.__init__ (pybeepop.py lines 44-64):
with no explicit lib_file, Windows rejects 32-bit and otherwise picks the
bundled dll; Linux picks the bundled .so with no architecture check; any
other OS raises NotImplementedError. Returns the resolved path and the lines
printed. -/
def resolve_lib_file (env : Env) (lib_file : Option String) (verbose : Bool) :
    Except PyErr (String × List String) :=
  match lib_file with
  | some f => .ok (f, [])
  | none =>
    if env.osName = "Windows" then
      if env.arch = "32bit" then
        .error (.notImplementedError
          "Windows x86 (32-bit) is not supported by BeePop+. Please run on an x64 platform.")
      else .ok (joinPath env.parent "lib/beepop_win64.dll", [])
    else if env.osName = "Linux" then
      .ok (joinPath env.parent "lib/beepop_linux.so",
           if verbose then [linuxVerboseMsg] else [])
    else .error (.notImplementedError "BeePop+ only supports Windows and Linux.")

/-- PyBeePop.load_weather (lines 109-123): missing file raises
FileNotFoundError before any state change or native call; otherwise the
weather_file attribute is set and the native bulk load is performed (the
native call itself is modelled from the spec as an atomic load). -/
def load_weather (env : Env) (weather_file : String) (s : St) :
    Except PyErr Unit × St :=
  if env.files.contains weather_file = false then
    (.error (.fileNotFoundError
      ("Weather file does not exist at path: " ++ weather_file ++ "!")), s)
  else
    let s1 := { s with weather_file := some weather_file }
    if s1.beepopAlive = false then (.error (.attributeError "beepop"), s1)
    else (.ok (), { s1 with nativeCalls := s1.nativeCalls ++ [.loadWeather weather_file] })

/-- PyBeePop.load_parameter_file (lines 125-143); note the message keeps the
source's spelling of Paramter. -/
def load_parameter_file (env : Env) (parameter_file : String) (s : St) :
    Except PyErr Unit × St :=
  if env.files.contains parameter_file = false then
    (.error (.fileNotFoundError
      ("Paramter file does not exist at path: " ++ parameter_file ++ "!")), s)
  else
    let s1 := { s with parameter_file := some parameter_file }
    if s1.beepopAlive = false then (.error (.attributeError "beepop"), s1)
    else (.ok (), { s1 with nativeCalls := s1.nativeCalls ++ [.loadInputFile parameter_file] })

/-- PyBeePop.load_residue_file (lines 145-160). -/
def load_residue_file (env : Env) (residue_file : String) (s : St) :
    Except PyErr Unit × St :=
  if env.files.contains residue_file = false then
    (.error (.fileNotFoundError
      ("Residue file does not exist at path: " ++ residue_file ++ "!")), s)
  else
    let s1 := { s with residue_file := some residue_file }
    if s1.beepopAlive = false then (.error (.attributeError "beepop"), s1)
    else (.ok (), { s1 with nativeCalls := s1.nativeCalls ++ [.loadContamFile residue_file] })

/-- PyBeePop.__init__ (lines 16-89). Resolves the library path, checks it is
a file, opens the native library, then handles the three optional file
arguments in source order. The source passes self.parameter_file and
self.residue_file (attributes never assigned at that point) instead of the
constructor arguments, so a non-None parameter_file or residue_file argument
raises AttributeError; the weather_file argument is forwarded correctly. -/
def mk (env : Env) (lib_file parameter_file weather_file residue_file : Option String)
    (verbose : Bool) : Except PyErr St :=
  match resolve_lib_file env lib_file verbose with
  | .error e => .error e
  | .ok (lf, out0) =>
    if env.files.contains lf = false then .error (.fileNotFoundError libNotFoundMsg)
    else
      let s0 : St := { lib_file := lf, verbose := verbose, beepopAlive := true,
                       parameters := .pynone, parameter_file := none,
                       weather_file := none, residue_file := none, output := none,
                       nativeCalls := [.openLib lf], stdout := out0 }
      if parameter_file.isSome then .error (.attributeError "parameter_file")
      else
        match weather_file with
        | some w =>
          match load_weather env w s0 with
          | (.error e, _) => .error e
          | (.ok _, s1) =>
            if residue_file.isSome then .error (.attributeError "residue_file")
            else .ok s1
        | none =>
          if residue_file.isSome then .error (.attributeError "residue_file")
          else .ok s0

/-- PyBeePop.set_parameters (lines 91-103): a non-None argument that is not a
dict raises TypeError before any native call; otherwise (a dict or None) the
argument is forwarded to the native set_parameters and the returned mapping
is cached. -/
def set_parameters (env : Env) (parameters : PyVal) (s : St) :
    Except PyErr Unit × St :=
  if parameters ≠ PyVal.pynone ∧ parameters.isDictB = false then
    (.error (.typeError "parameters must be a named dictionary of BeePop+ parameters"), s)
  else if s.beepopAlive = false then (.error (.attributeError "beepop"), s)
  else (.ok (), { s with parameters := env.setParamsResult parameters,
                         nativeCalls := s.nativeCalls ++ [.setParameters parameters] })

/-- PyBeePop.get_parameters (lines 105-107). -/
def get_parameters (env : Env) (s : St) : Except PyErr PyVal × St :=
  if s.beepopAlive = false then (.error (.attributeError "beepop"), s)
  else (.ok env.getParamsResult, { s with nativeCalls := s.nativeCalls ++ [.getParameters] })

/-- The warning print at the top of run_model (lines 171-173), keeping the
source's spelling of defualt. -/
def warnIfNoParams (s : St) : St :=
  if s.parameter_file = none ∧ s.parameters = PyVal.pynone then
    { s with stdout := s.stdout ++ ["No parameters have been set. Running with defualt settings."] }
  else s

/-- PyBeePop.run_model (lines 162-177): warn if no parameters were supplied,
raise RuntimeError if weather was never set, then invoke the native run; the
output attribute is assigned only from a successful native run. -/
def run_model (env : Env) (s : St) : Except PyErr Table × St :=
  let s0 := warnIfNoParams s
  if s0.weather_file = none then
    (.error (.runtimeError "Weather must be set before running BeePop+!"), s0)
  else if s0.beepopAlive = false then (.error (.attributeError "beepop"), s0)
  else
    match env.runResult with
    | .error m => (.error (.runtimeError m), { s0 with nativeCalls := s0.nativeCalls ++ [.runBeepop] })
    | .ok t => (.ok t, { s0 with output := some t,
                                 nativeCalls := s0.nativeCalls ++ [.runBeepop] })

/-- decimal digit character for a value below 10. -/
def digitChar (d : Nat) : Char := Char.ofNat (48 + d)

/-- Decimal digit characters of a natural number, most significant first.
Modelled from the spec: the Python json module prints integers in decimal. -/
def printNat (n : Nat) : List Char :=
  if n = 0 then [Char.ofNat 48] else ((Nat.digits 10 n).map digitChar).reverse

/-- Decimal printing of an integer, with a leading minus sign if negative. -/
def printInt (i : Int) : List Char :=
  if i < 0 then Char.ofNat 45 :: printNat i.natAbs else printNat i.natAbs

/-- JSON escaping of one string character. Modelled from the spec: the json
module escapes the quote, the backslash and common control characters. -/
def escapeChar (c : Char) : List Char :=
  if c = Char.ofNat 34 then [Char.ofNat 92, Char.ofNat 34]
  else if c = Char.ofNat 92 then [Char.ofNat 92, Char.ofNat 92]
  else if c = Char.ofNat 10 then [Char.ofNat 92, Char.ofNat 110]
  else if c = Char.ofNat 9 then [Char.ofNat 92, Char.ofNat 116]
  else if c = Char.ofNat 13 then [Char.ofNat 92, Char.ofNat 114]
  else [c]

/-- JSON escaping of a whole character list. -/
def escapeStr : List Char → List Char
  | [] => []
  | c :: cs => escapeChar c ++ escapeStr cs

/-- A JSON string literal: quote, escaped body, quote. -/
def printJString (s : List Char) : List Char :=
  Char.ofNat 34 :: escapeStr s ++ [Char.ofNat 34]

/-- Serialization of one scalar value. -/
def printScalar : Scalar → List Char
  | .str v => printJString v.data
  | .int i => printInt i

/-- The items of a JSON array joined by comma-space, the json module's
default separator. -/
def printItems : List Scalar → List Char
  | [] => []
  | [v] => printScalar v
  | v :: vs => printScalar v ++ Char.ofNat 44 :: Char.ofNat 32 :: printItems vs

/-- A JSON array of scalars. -/
def printJList (vs : List Scalar) : List Char :=
  Char.ofNat 91 :: printItems vs ++ [Char.ofNat 93]

/-- One object entry: quoted key, colon-space, array of values. -/
def printEntry (k : String) (vs : List Scalar) : List Char :=
  printJString k.data ++ Char.ofNat 58 :: Char.ofNat 32 :: printJList vs

/-- Object entries joined by comma-space. -/
def printEntries : Table → List Char
  | [] => []
  | [e] => printEntry e.1 e.2
  | e :: es => printEntry e.1 e.2 ++ Char.ofNat 44 :: Char.ofNat 32 :: printEntries es

/-- The full JSON object text for a table. -/
def printObj (t : Table) : List Char :=
  Char.ofNat 123 :: printEntries t ++ [Char.ofNat 125]

/-- json.dumps(output.to_dict(orient="list")) as used by get_output
(line 195). Modelled from the spec: serialized text mapping each column name
to its ordered sequence of values. -/
def jsonDumps (t : Table) : String := String.mk (printObj t)

/-- Inverse of escapeChar on the character following a backslash. -/
def unescapeChar (e : Char) : Option Char :=
  if e = Char.ofNat 34 then some (Char.ofNat 34)
  else if e = Char.ofNat 92 then some (Char.ofNat 92)
  else if e = Char.ofNat 110 then some (Char.ofNat 10)
  else if e = Char.ofNat 116 then some (Char.ofNat 9)
  else if e = Char.ofNat 114 then some (Char.ofNat 13)
  else none

/-- Parse the body of a JSON string literal up to and including the closing
quote, undoing the escapes. -/
def parseJStringBody : List Char → Option (List Char × List Char)
  | [] => none
  | c :: rest =>
    if c = Char.ofNat 34 then some ([], rest)
    else if c = Char.ofNat 92 then
      match rest with
      | [] => none
      | e :: rest2 =>
        match unescapeChar e with
        | none => none
        | some u => (parseJStringBody rest2).map (fun p => (u :: p.1, p.2))
    else (parseJStringBody rest).map (fun p => (c :: p.1, p.2))

/-- Numeric value of a big-endian list of decimal digit characters. -/
def digitsToNat (cs : List Char) : Nat :=
  cs.foldl (fun a c => 10 * a + (c.toNat - 48)) 0

/-- Parse a maximal run of decimal digits. -/
def parseNat (l : List Char) : Option (Nat × List Char) :=
  let ds := l.takeWhile Char.isDigit
  if ds.isEmpty then none else some (digitsToNat ds, l.dropWhile Char.isDigit)

/-- Parse an optionally negated decimal integer. -/
def parseInt (l : List Char) : Option (Int × List Char) :=
  match l with
  | [] => none
  | c :: rest =>
    if c = Char.ofNat 45 then (parseNat rest).map (fun p => (-(p.1 : Int), p.2))
    else (parseNat l).map (fun p => ((p.1 : Int), p.2))

/-- Parse one scalar: a quoted string or an integer. -/
def parseScalar (l : List Char) : Option (Scalar × List Char) :=
  match l with
  | [] => none
  | c :: rest =>
    if c = Char.ofNat 34 then
      (parseJStringBody rest).map (fun p => (Scalar.str (String.mk p.1), p.2))
    else (parseInt l).map (fun p => (Scalar.int p.1, p.2))

/-- Parse the non-empty item sequence of a JSON array up to and including the
closing bracket; the fuel bounds the number of items. -/
def parseItems : Nat → List Char → Option (List Scalar × List Char)
  | 0, _ => none
  | fuel + 1, l =>
    match parseScalar l with
    | none => none
    | some (v, rest) =>
      match rest with
      | [] => none
      | c :: r2 =>
        if c = Char.ofNat 93 then some ([v], r2)
        else if c = Char.ofNat 44 then
          match r2 with
          | [] => none
          | c2 :: r3 =>
            if c2 = Char.ofNat 32 then
              (parseItems fuel r3).map (fun p => (v :: p.1, p.2))
            else none
        else none

/-- Parse a JSON array of scalars. -/
def parseJList (fuel : Nat) (l : List Char) : Option (List Scalar × List Char) :=
  match l with
  | [] => none
  | c :: rest =>
    if c = Char.ofNat 91 then
      match rest with
      | [] => none
      | c2 :: _ => if c2 = Char.ofNat 93 then some ([], rest.tail) else parseItems fuel rest
    else none

/-- Parse the non-empty entry sequence of a JSON object up to and including
the closing brace; the fuel bounds the number of entries. -/
def parseEntries : Nat → List Char → Option (Table × List Char)
  | 0, _ => none
  | fuel + 1, l =>
    match l with
    | [] => none
    | c :: rest =>
      if c = Char.ofNat 34 then
        match parseJStringBody rest with
        | none => none
        | some (k, r1) =>
          match r1 with
          | [] => none
          | c1 :: r2 =>
            if c1 = Char.ofNat 58 then
              match r2 with
              | [] => none
              | c2 :: r3 =>
                if c2 = Char.ofNat 32 then
                  match parseJList fuel r3 with
                  | none => none
                  | some (vs, r4) =>
                    match r4 with
                    | [] => none
                    | c3 :: r5 =>
                      if c3 = Char.ofNat 125 then some ([(String.mk k, vs)], r5)
                      else if c3 = Char.ofNat 44 then
                        match r5 with
                        | [] => none
                        | c4 :: r6 =>
                          if c4 = Char.ofNat 32 then
                            (parseEntries fuel r6).map (fun p => ((String.mk k, vs) :: p.1, p.2))
                          else none
                      else none
                else none
            else none
      else none

/-- Parse a JSON object in the shape produced by jsonDumps. -/
def parseObj (fuel : Nat) (l : List Char) : Option (Table × List Char) :=
  match l with
  | [] => none
  | c :: rest =>
    if c = Char.ofNat 123 then
      match rest with
      | [] => none
      | c2 :: _ => if c2 = Char.ofNat 125 then some ([], rest.tail) else parseEntries fuel rest
    else none

/-- json.loads on the text produced by get_output's JSON serialization.
Modelled from the spec: deserializing the returned text yields the
column-to-values mapping. -/
def jsonLoads (s : String) : Option Table :=
  match parseObj (s.data.length + 1) s.data with
  | some (t, []) => some t
  | _ => none

/-- The value returned by get_output: the DataFrame itself or its JSON
serialization. -/
inductive OutVal where
  | table (t : Table)
  | jsonStr (s : String)
deriving DecidableEq

/-- PyBeePop.get_output (lines 179-198): RuntimeError when no run has stored
an output; the JSON text exactly when format equals the string json; the
DataFrame itself for every other format value, with no error. -/
def get_output (format : String) (s : St) : Except PyErr OutVal × St :=
  match s.output with
  | none => (.error (.runtimeError "There are no results to plot. Please run the model first."), s)
  | some t =>
    if format = "json" then (.ok (.jsonStr (jsonDumps t)), s)
    else (.ok (.table t), s)

/-- The chart handle returned by the plotting collaborator. Modelled from the
spec: plot_timeseries delegates chart construction and returns a handle for
further customization; embedded as the data it renders. -/
structure Plot where
  output : Table
  columns : List String
deriving DecidableEq

/-- PyBeePop.plot_output (lines 200-231): RuntimeError when no output exists;
otherwise the requested column names are checked against the output's
columns with a zip of per-column flags, and an IndexError naming the invalid
columns is raised when any flag is set. -/
def plot_output (columns : List String) (s : St) : Except PyErr Plot × St :=
  match s.output with
  | none => (.error (.runtimeError "There are no results to plot. Please run the model first."), s)
  | some t =>
    let invalid_cols := columns.map (fun col => !(columnsOf t).contains col)
    if invalid_cols.any (fun b => b) then
      (.error (.indexError
        ("The column name " ++
         pyReprStrList (((columns.zip invalid_cols).filter (fun p => p.2)).map Prod.fst) ++
         " is not a valid output column.")), s)
    else (.ok { output := t, columns := columns }, s)

/-- PyBeePop.get_error_log (lines 233-235). -/
def get_error_log (env : Env) (s : St) : Except PyErr String × St :=
  if s.beepopAlive = false then (.error (.attributeError "beepop"), s)
  else (.ok env.errorLog, { s with nativeCalls := s.nativeCalls ++ [.getErrors] })

/-- PyBeePop.get_info_log (lines 237-239). -/
def get_info_log (env : Env) (s : St) : Except PyErr String × St :=
  if s.beepopAlive = false then (.error (.attributeError "beepop"), s)
  else (.ok env.infoLog, { s with nativeCalls := s.nativeCalls ++ [.getInfo] })

/-- PyBeePop.version (lines 241-244). -/
def version (env : Env) (s : St) : Except PyErr String × St :=
  if s.beepopAlive = false then (.error (.attributeError "beepop"), s)
  else (.ok env.versionStr, { s with nativeCalls := s.nativeCalls ++ [.getVersion] })

/-- PyBeePop.exit (lines 246-250): closes the native library and deletes the
beepop attribute, so a second exit raises AttributeError. -/
def exit (s : St) : Except PyErr Unit × St :=
  if s.beepopAlive = false then (.error (.attributeError "beepop"), s)
  else (.ok (), { s with beepopAlive := false,
                         nativeCalls := s.nativeCalls ++ [.closeLibrary] })

/-- True exactly on an error result. -/
def isErr {α : Type} : Except PyErr α → Bool
  | .error _ => true
  | .ok _ => false

/-- True when the list does not start with a decimal digit, the condition
under which a digit run parsed from a longer text stops at the right place. -/
def headNotDigit : List Char → Bool
  | [] => true
  | c :: _ => !c.isDigit

/-- A sample run output table for the concrete instantiations below. -/
def tbl1 : Table :=
  [("Colony Size", [.int 12, .int 0]), ("Date", [.str "06/15/15", .str "06/16/15"])]

/-- A concrete environment: 64-bit Linux with the bundled artifact and the
sample input files present, and a native run that succeeds with tbl1. -/
def env1 : Env :=
  { osName := "Linux", arch := "64bit", parent := "/pkg",
    files := ["/pkg/lib/beepop_linux.so", "weather.csv", "params.txt", "residues.csv",
              "/opt/custom/beepop.so"],
    runResult := .ok tbl1, setParamsResult := fun p => p, getParamsResult := .pynone,
    versionStr := "0.1", errorLog := "", infoLog := "" }

/-- env1 on a 32-bit architecture. -/
def envLinux32 : Env := { env1 with arch := "32bit" }

/-- 32-bit Linux with an empty filesystem. -/
def envLinux32NoFiles : Env := { env1 with arch := "32bit", files := [] }

/-- A macOS environment. -/
def envDarwin : Env := { env1 with osName := "Darwin" }

/-- 64-bit Windows with the bundled dll present. -/
def envWin64 : Env :=
  { env1 with osName := "Windows", files := ["/pkg/lib/beepop_win64.dll"] }

/-- 32-bit Windows. -/
def envWin32 : Env := { envWin64 with arch := "32bit" }

/-- env1 with a native run that fails. -/
def envFail : Env := { env1 with runResult := .error "beepop run failed" }

/-- The state of a handle freshly constructed over env1's bundled library. -/
def st0 : St :=
  { lib_file := "/pkg/lib/beepop_linux.so", verbose := false, beepopAlive := true,
    parameters := .pynone, parameter_file := none, weather_file := none,
    residue_file := none, output := none,
    nativeCalls := [.openLib "/pkg/lib/beepop_linux.so"], stdout := [] }

/-- st0 after load_weather succeeded. -/
def stWeather : St :=
  { st0 with weather_file := some "weather.csv",
             nativeCalls := st0.nativeCalls ++ [.loadWeather "weather.csv"] }

/-- A state after a successful run: weather loaded and output stored. -/
def stRan : St :=
  { stWeather with output := some tbl1,
                   nativeCalls := stWeather.nativeCalls ++ [.runBeepop] }

/-- stRan after exit() has been called. -/
def stClosed : St :=
  { stRan with beepopAlive := false,
               nativeCalls := stRan.nativeCalls ++ [.closeLibrary] }

theorem digitChar_isDigit {d : Nat} (h : d < 10) : (digitChar d).isDigit = true := by
  interval_cases d <;> decide

theorem digitChar_toNat {d : Nat} (h : d < 10) : (digitChar d).toNat - 48 = d := by
  interval_cases d <;> decide

theorem printNat_ne_nil (n : Nat) : printNat n ≠ [] := by
  unfold printNat
  split
  · simp
  · simp [Nat.digits_ne_nil_iff_ne_zero, *]

theorem printNat_all_digits (n : Nat) : ∀ c ∈ printNat n, c.isDigit = true := by
  intro c hc
  unfold printNat at hc
  split at hc
  · simp at hc
    simp [hc]
  · simp only [List.mem_reverse, List.mem_map] at hc
    obtain ⟨d, hd, rfl⟩ := hc
    exact digitChar_isDigit (Nat.digits_lt_base (by norm_num) hd)

theorem takeWhile_digits_append {xs rest : List Char}
    (hxs : ∀ c ∈ xs, c.isDigit = true) (hrest : headNotDigit rest = true) :
    (xs ++ rest).takeWhile Char.isDigit = xs ∧
    (xs ++ rest).dropWhile Char.isDigit = rest := by
  induction xs with
  | nil =>
    cases rest with
    | nil => simp
    | cons c r =>
      simp only [headNotDigit, Bool.not_eq_true'] at hrest
      simp [List.takeWhile_cons, List.dropWhile_cons, hrest]
  | cons x xs ih =>
    have hx : x.isDigit = true := hxs x (by simp)
    have := ih (fun c hc => hxs c (by simp [hc]))
    simp [List.takeWhile_cons, List.dropWhile_cons, hx, this.1, this.2]

theorem foldr_digitChar_eq_ofDigits (L : List Nat) (hL : ∀ d ∈ L, d < 10) :
    L.foldr (fun d y => 10 * y + ((digitChar d).toNat - 48)) 0 = Nat.ofDigits 10 L := by
  induction L with
  | nil => simp [Nat.ofDigits]
  | cons d L ih =>
    have hd : d < 10 := hL d (by simp)
    have ih2 := ih (fun x hx => hL x (by simp [hx]))
    simp only [List.foldr_cons, ih2, digitChar_toNat hd, Nat.ofDigits_cons]
    omega

theorem digitsToNat_printNat (n : Nat) : digitsToNat (printNat n) = n := by
  by_cases h : n = 0
  · subst h; decide
  · unfold printNat digitsToNat
    rw [if_neg h, List.foldl_reverse, List.foldr_map]
    rw [foldr_digitChar_eq_ofDigits _ (fun d hd => Nat.digits_lt_base (by norm_num) hd)]
    exact Nat.ofDigits_digits 10 n

theorem parseNat_printNat (n : Nat) {rest : List Char}
    (hrest : headNotDigit rest = true) :
    parseNat (printNat n ++ rest) = some (n, rest) := by
  have h := takeWhile_digits_append (printNat_all_digits n) hrest
  unfold parseNat
  rw [h.1, h.2]
  have hne := printNat_ne_nil n
  simp only [List.isEmpty_iff]
  rw [if_neg hne, digitsToNat_printNat]

theorem headNotDigit_cons {c : Char} (h : c.isDigit = false) (l : List Char) :
    headNotDigit (c :: l) = true := by
  unfold headNotDigit
  simp [h]

theorem parseInt_printInt (i : Int) {rest : List Char}
    (hrest : headNotDigit rest = true) :
    parseInt (printInt i ++ rest) = some (i, rest) := by
  unfold printInt
  by_cases hneg : i < 0
  · rw [if_pos hneg]
    show parseInt (Char.ofNat 45 :: (printNat i.natAbs ++ rest)) = some (i, rest)
    unfold parseInt
    simp [parseNat_printNat _ hrest, abs_of_neg hneg]
  · rw [if_neg hneg]
    obtain ⟨c, cs, hp⟩ : ∃ c cs, printNat i.natAbs = c :: cs := by
      cases hpn : printNat i.natAbs with
      | nil => exact absurd hpn (printNat_ne_nil _)
      | cons c cs => exact ⟨c, cs, rfl⟩
    have hcdig : c.isDigit = true := printNat_all_digits i.natAbs c (by rw [hp]; simp)
    have hcne : ¬ c = Char.ofNat 45 := by
      intro hh
      rw [hh] at hcdig
      exact absurd hcdig (by decide)
    have hpn : parseNat (printNat i.natAbs ++ rest) = some (i.natAbs, rest) :=
      parseNat_printNat _ hrest
    rw [hp] at hpn ⊢
    show parseInt (c :: (cs ++ rest)) = some (i, rest)
    unfold parseInt
    rw [List.cons_append] at hpn
    have hi : (i.natAbs : Int) = i := by omega
    simp [hcne, hpn, hi]

theorem parseJStringBody_escape (s : List Char) (rest : List Char) :
    parseJStringBody (escapeStr s ++ Char.ofNat 34 :: rest) = some (s, rest) := by
  induction s with
  | nil =>
    show parseJStringBody (Char.ofNat 34 :: rest) = some ([], rest)
    unfold parseJStringBody
    simp
  | cons c cs ih =>
    show parseJStringBody (escapeChar c ++ escapeStr cs ++ Char.ofNat 34 :: rest) =
      some (c :: cs, rest)
    unfold escapeChar
    by_cases h1 : c = Char.ofNat 34
    · subst h1
      show parseJStringBody
        (Char.ofNat 92 :: Char.ofNat 34 :: (escapeStr cs ++ Char.ofNat 34 :: rest)) =
        some (Char.ofNat 34 :: cs, rest)
      unfold parseJStringBody
      simp [unescapeChar, ih]
    · rw [if_neg h1]
      by_cases h2 : c = Char.ofNat 92
      · subst h2
        show parseJStringBody
          (Char.ofNat 92 :: Char.ofNat 92 :: (escapeStr cs ++ Char.ofNat 34 :: rest)) =
          some (Char.ofNat 92 :: cs, rest)
        unfold parseJStringBody
        simp [unescapeChar, ih]
      · rw [if_neg h2]
        by_cases h3 : c = Char.ofNat 10
        · subst h3
          show parseJStringBody
            (Char.ofNat 92 :: Char.ofNat 110 :: (escapeStr cs ++ Char.ofNat 34 :: rest)) =
            some (Char.ofNat 10 :: cs, rest)
          unfold parseJStringBody
          simp [unescapeChar, ih]
        · rw [if_neg h3]
          by_cases h4 : c = Char.ofNat 9
          · subst h4
            show parseJStringBody
              (Char.ofNat 92 :: Char.ofNat 116 :: (escapeStr cs ++ Char.ofNat 34 :: rest)) =
              some (Char.ofNat 9 :: cs, rest)
            unfold parseJStringBody
            simp [unescapeChar, ih]
          · rw [if_neg h4]
            by_cases h5 : c = Char.ofNat 13
            · subst h5
              show parseJStringBody
                (Char.ofNat 92 :: Char.ofNat 114 :: (escapeStr cs ++ Char.ofNat 34 :: rest)) =
                some (Char.ofNat 13 :: cs, rest)
              unfold parseJStringBody
              simp [unescapeChar, ih]
            · rw [if_neg h5]
              show parseJStringBody (c :: (escapeStr cs ++ Char.ofNat 34 :: rest)) =
                some (c :: cs, rest)
              unfold parseJStringBody
              simp [h1, h2, ih]

theorem printInt_head (i : Int) :
    ∃ c cs, printInt i = c :: cs ∧ (c = Char.ofNat 45 ∨ c.isDigit = true) := by
  unfold printInt
  by_cases hneg : i < 0
  · exact ⟨Char.ofNat 45, printNat i.natAbs, by rw [if_pos hneg], Or.inl rfl⟩
  · rw [if_neg hneg]
    obtain ⟨c, cs, hp⟩ : ∃ c cs, printNat i.natAbs = c :: cs := by
      cases hpn : printNat i.natAbs with
      | nil => exact absurd hpn (printNat_ne_nil _)
      | cons c cs => exact ⟨c, cs, rfl⟩
    exact ⟨c, cs, hp, Or.inr (printNat_all_digits i.natAbs c (by rw [hp]; simp))⟩

theorem parseScalar_printScalar (v : Scalar) {rest : List Char}
    (hrest : headNotDigit rest = true) :
    parseScalar (printScalar v ++ rest) = some (v, rest) := by
  cases v with
  | str s =>
    show parseScalar (printJString s.data ++ rest) = some (.str s, rest)
    unfold printJString
    show parseScalar (Char.ofNat 34 :: (escapeStr s.data ++ [Char.ofNat 34] ++ rest)) =
      some (.str s, rest)
    unfold parseScalar
    simp [List.append_assoc, parseJStringBody_escape]
  | int i =>
    show parseScalar (printInt i ++ rest) = some (.int i, rest)
    obtain ⟨c, cs, hp, hc⟩ := printInt_head i
    have hc34 : ¬ c = Char.ofNat 34 := by
      rcases hc with h | h
      · subst h; decide
      · intro hh
        rw [hh] at h
        exact absurd h (by decide)
    have hpi : parseInt (printInt i ++ rest) = some (i, rest) := parseInt_printInt i hrest
    rw [hp] at hpi ⊢
    show parseScalar (c :: (cs ++ rest)) = some (.int i, rest)
    unfold parseScalar
    rw [List.cons_append] at hpi
    simp [hc34, hpi]

theorem parseItems_printItems :
    ∀ (vs : List Scalar) (fuel : Nat) (rest : List Char), vs ≠ [] →
    vs.length ≤ fuel →
    parseItems fuel (printItems vs ++ Char.ofNat 93 :: rest) = some (vs, rest) := by
  intro vs
  induction vs with
  | nil => intro fuel rest h; exact absurd rfl h
  | cons v vs ih =>
    intro fuel rest _ hlen
    obtain ⟨f, rfl⟩ : ∃ f, fuel = f + 1 := ⟨fuel - 1, by simp at hlen; omega⟩
    cases vs with
    | nil =>
      show parseItems (f + 1) (printScalar v ++ Char.ofNat 93 :: rest) = some ([v], rest)
      have hps : parseScalar (printScalar v ++ Char.ofNat 93 :: rest) =
          some (v, Char.ofNat 93 :: rest) :=
        parseScalar_printScalar v (headNotDigit_cons (by decide) rest)
      unfold parseItems
      rw [hps]
      simp
    | cons v2 vs2 =>
      show parseItems (f + 1)
        ((printScalar v ++ Char.ofNat 44 :: Char.ofNat 32 :: printItems (v2 :: vs2)) ++
          Char.ofNat 93 :: rest) = some (v :: v2 :: vs2, rest)
      rw [List.append_assoc, List.cons_append, List.cons_append]
      have hps : parseScalar (printScalar v ++
          Char.ofNat 44 :: Char.ofNat 32 :: (printItems (v2 :: vs2) ++ Char.ofNat 93 :: rest)) =
          some (v, Char.ofNat 44 :: Char.ofNat 32 :: (printItems (v2 :: vs2) ++ Char.ofNat 93 :: rest)) :=
        parseScalar_printScalar v (headNotDigit_cons (by decide) _)
      have hih := ih f rest (by simp) (by simp at hlen ⊢; omega)
      unfold parseItems
      rw [hps]
      simp [hih]

theorem printScalar_head (v : Scalar) :
    ∃ c cs, printScalar v = c :: cs ∧
      (c = Char.ofNat 34 ∨ c = Char.ofNat 45 ∨ c.isDigit = true) := by
  cases v with
  | str s => exact ⟨Char.ofNat 34, escapeStr s.data ++ [Char.ofNat 34], rfl, Or.inl rfl⟩
  | int i =>
    obtain ⟨c, cs, hp, hc⟩ := printInt_head i
    exact ⟨c, cs, hp, Or.inr hc⟩

theorem printItems_cons_ex (v : Scalar) (vs : List Scalar) :
    ∃ tail, printItems (v :: vs) = printScalar v ++ tail := by
  cases vs with
  | nil => exact ⟨[], by simp [printItems]⟩
  | cons v2 vs2 =>
    exact ⟨Char.ofNat 44 :: Char.ofNat 32 :: printItems (v2 :: vs2), rfl⟩

theorem parseJList_printJList (vs : List Scalar) (fuel : Nat) (rest : List Char)
    (hlen : vs.length ≤ fuel) :
    parseJList fuel (printJList vs ++ rest) = some (vs, rest) := by
  cases vs with
  | nil =>
    show parseJList fuel (Char.ofNat 91 :: Char.ofNat 93 :: rest) = some ([], rest)
    unfold parseJList
    simp
  | cons v vs2 =>
    obtain ⟨tail, htail⟩ := printItems_cons_ex v vs2
    obtain ⟨c, cs, hp, hc⟩ := printScalar_head v
    have hc93 : ¬ c = Char.ofNat 93 := by
      rcases hc with h | h | h
      · subst h; decide
      · subst h; decide
      · intro hh
        rw [hh] at h
        exact absurd h (by decide)
    have hshape : printItems (v :: vs2) = c :: (cs ++ tail) := by
      rw [htail, hp, List.cons_append]
    have hitems : parseItems fuel (printItems (v :: vs2) ++ Char.ofNat 93 :: rest) =
        some (v :: vs2, rest) := parseItems_printItems _ fuel rest (by simp) hlen
    rw [hshape, List.cons_append, List.append_assoc] at hitems
    show parseJList fuel
      (Char.ofNat 91 :: (printItems (v :: vs2) ++ [Char.ofNat 93] ++ rest)) = some (v :: vs2, rest)
    rw [List.append_assoc, List.singleton_append, hshape, List.cons_append]
    unfold parseJList
    simp [hc93, hitems]

theorem printEntries_cons_ex (e : String × List Scalar) (t : Table) :
    ∃ tail, printEntries (e :: t) = Char.ofNat 34 :: tail := by
  cases t with
  | nil =>
    exact ⟨escapeStr e.1.data ++ [Char.ofNat 34] ++
      Char.ofNat 58 :: Char.ofNat 32 :: printJList e.2, rfl⟩
  | cons e2 t2 =>
    exact ⟨escapeStr e.1.data ++ [Char.ofNat 34] ++
      Char.ofNat 58 :: Char.ofNat 32 :: printJList e.2 ++
      Char.ofNat 44 :: Char.ofNat 32 :: printEntries (e2 :: t2), by
        show printEntry e.1 e.2 ++ Char.ofNat 44 :: Char.ofNat 32 :: printEntries (e2 :: t2) = _
        simp [printEntry, printJString]⟩

theorem mk_data_eq (s : String) : String.mk s.data = s := rfl

theorem parseEntries_printEntries :
    ∀ (t : Table) (fuel : Nat) (rest : List Char), t ≠ [] →
    (∀ e ∈ t, e.2.length + t.length ≤ fuel) → t.length ≤ fuel →
    parseEntries fuel (printEntries t ++ Char.ofNat 125 :: rest) = some (t, rest) := by
  intro t
  induction t with
  | nil => intro fuel rest h; exact absurd rfl h
  | cons e t ih =>
    intro fuel rest _ hvs hlen
    obtain ⟨f, rfl⟩ : ∃ f, fuel = f + 1 := ⟨fuel - 1, by simp at hlen; omega⟩
    have hkey : ∀ (r : List Char),
        parseJStringBody (escapeStr e.1.data ++ Char.ofNat 34 :: r) = some (e.1.data, r) :=
      fun r => parseJStringBody_escape e.1.data r
    have hvlen : e.2.length ≤ f := by
      have := hvs e (by simp)
      simp at this
      omega
    cases t with
    | nil =>
      show parseEntries (f + 1)
        ((printJString e.1.data ++ Char.ofNat 58 :: Char.ofNat 32 :: printJList e.2) ++
          Char.ofNat 125 :: rest) = some ([e], rest)
      have hvjl : parseJList f (printJList e.2 ++ Char.ofNat 125 :: rest) =
          some (e.2, Char.ofNat 125 :: rest) :=
        parseJList_printJList e.2 f _ hvlen
      unfold printJString
      unfold parseEntries
      simp [List.append_assoc, hkey, hvjl, mk_data_eq]
    | cons e2 t2 =>
      show parseEntries (f + 1)
        ((printJString e.1.data ++ Char.ofNat 58 :: Char.ofNat 32 :: printJList e.2 ++
          Char.ofNat 44 :: Char.ofNat 32 :: printEntries (e2 :: t2)) ++
          Char.ofNat 125 :: rest) = some (e :: e2 :: t2, rest)
      have hvjl : parseJList f (printJList e.2 ++
          Char.ofNat 44 :: Char.ofNat 32 :: (printEntries (e2 :: t2) ++ Char.ofNat 125 :: rest)) =
          some (e.2, Char.ofNat 44 :: Char.ofNat 32 ::
            (printEntries (e2 :: t2) ++ Char.ofNat 125 :: rest)) :=
        parseJList_printJList e.2 f _ hvlen
      have hih : parseEntries f (printEntries (e2 :: t2) ++ Char.ofNat 125 :: rest) =
          some (e2 :: t2, rest) := by
        refine ih f rest (by simp) ?_ (by simp at hlen ⊢; omega)
        intro x hx
        have := hvs x (by simp [hx])
        simp at this ⊢
        omega
      unfold printJString
      unfold parseEntries
      simp [List.append_assoc, hkey, hvjl, hih, mk_data_eq]

theorem parseObj_printObj (t : Table) (fuel : Nat)
    (h1 : t.length ≤ fuel) (h2 : ∀ e ∈ t, e.2.length + t.length ≤ fuel) :
    parseObj fuel (printObj t) = some (t, []) := by
  cases t with
  | nil =>
    show parseObj fuel (Char.ofNat 123 :: Char.ofNat 125 :: []) = some ([], [])
    unfold parseObj
    simp
  | cons e t2 =>
    obtain ⟨tail, htail⟩ := printEntries_cons_ex e t2
    have hentries : parseEntries fuel (printEntries (e :: t2) ++ Char.ofNat 125 :: []) =
        some (e :: t2, []) := parseEntries_printEntries _ fuel [] (by simp) h2 h1
    show parseObj fuel (Char.ofNat 123 :: (printEntries (e :: t2) ++ [Char.ofNat 125])) =
      some (e :: t2, [])
    rw [htail] at hentries ⊢
    rw [List.cons_append] at hentries
    unfold parseObj
    simp [hentries]

theorem one_le_printScalar_length (v : Scalar) : 1 ≤ (printScalar v).length := by
  cases v with
  | str s => simp [printScalar, printJString]
  | int i =>
    obtain ⟨c, cs, hp, _⟩ := printInt_head i
    simp [printScalar, hp]

theorem length_le_printItems (vs : List Scalar) : vs.length ≤ (printItems vs).length := by
  induction vs with
  | nil => simp [printItems]
  | cons v vs ih =>
    cases vs with
    | nil =>
      simpa [printItems] using one_le_printScalar_length v
    | cons v2 vs2 =>
      have h1 := one_le_printScalar_length v
      show (v :: v2 :: vs2).length ≤
        (printScalar v ++ Char.ofNat 44 :: Char.ofNat 32 :: printItems (v2 :: vs2)).length
      simp only [List.length_cons, List.length_append] at *
      omega

theorem printEntry_bounds (k : String) (vs : List Scalar) :
    vs.length + 6 ≤ (printEntry k vs).length := by
  have h := length_le_printItems vs
  simp only [printEntry, printJString, printJList, List.length_append, List.length_cons,
    List.length_singleton]
  omega

theorem printEntries_bounds (t : Table) :
    t.length ≤ (printEntries t).length ∧
    ∀ e ∈ t, e.2.length + t.length ≤ (printEntries t).length := by
  induction t with
  | nil => simp [printEntries]
  | cons e t ih =>
    cases t with
    | nil =>
      have h := printEntry_bounds e.1 e.2
      constructor
      · show 1 ≤ (printEntry e.1 e.2).length
        omega
      · intro x hx
        simp only [List.mem_singleton] at hx
        subst hx
        show x.2.length + 1 ≤ (printEntry x.1 x.2).length
        omega
    | cons e2 t2 =>
      have h := printEntry_bounds e.1 e.2
      constructor
      · show (e :: e2 :: t2).length ≤
          (printEntry e.1 e.2 ++ Char.ofNat 44 :: Char.ofNat 32 :: printEntries (e2 :: t2)).length
        have := ih.1
        simp only [List.length_cons, List.length_append] at *
        omega
      · intro x hx
        show x.2.length + (e :: e2 :: t2).length ≤
          (printEntry e.1 e.2 ++ Char.ofNat 44 :: Char.ofNat 32 :: printEntries (e2 :: t2)).length
        simp only [List.mem_cons] at hx
        rcases hx with rfl | hx
        · have := ih.1
          simp only [List.length_append, List.length_cons] at *
          omega
        · have := ih.2 x (by simpa using hx)
          simp only [List.length_append, List.length_cons] at *
          omega

/-- The serialization of get_output's JSON format is lossless: deserializing
the dumped text yields exactly the column-to-values mapping of the table. -/
theorem jsonLoads_jsonDumps (t : Table) : jsonLoads (jsonDumps t) = some t := by
  have hb := printEntries_bounds t
  have hpe : (printEntries t).length + 2 = (printObj t).length := by
    simp [printObj]
  have hobj : parseObj ((printObj t).length + 1) (printObj t) = some (t, []) := by
    refine parseObj_printObj t _ (by omega) ?_
    intro e he
    have h1 := hb.2 e he
    omega
  show (match parseObj ((String.mk (printObj t)).data.length + 1)
      (String.mk (printObj t)).data with
    | some (t, []) => some t
    | _ => none) = some t
  rw [show (String.mk (printObj t)).data = printObj t from rfl, hobj]

theorem warnIfNoParams_weather (s : St) : (warnIfNoParams s).weather_file = s.weather_file := by
  unfold warnIfNoParams
  split <;> rfl

theorem warnIfNoParams_alive (s : St) : (warnIfNoParams s).beepopAlive = s.beepopAlive := by
  unfold warnIfNoParams
  split <;> rfl

theorem warnIfNoParams_output (s : St) : (warnIfNoParams s).output = s.output := by
  unfold warnIfNoParams
  split <;> rfl

/-- Claim C1: in every state with no weather loaded, run_model raises the
weather-precondition RuntimeError, regardless of the parameter state; with
weather loaded and neither parameters nor a parameter file set, it prints
the no-parameters warning and proceeds with the native library's defaults
instead of failing. -/
theorem run_model_weather_precondition (env : Env) (s : St) :
    (s.weather_file = none →
      run_model env s =
        (.error (.runtimeError "Weather must be set before running BeePop+!"),
         warnIfNoParams s)) ∧
    (∀ w t, s.weather_file = some w → s.beepopAlive = true → s.parameter_file = none →
      s.parameters = PyVal.pynone → env.runResult = .ok t →
      run_model env s =
        (.ok t, { s with
          stdout := s.stdout ++ ["No parameters have been set. Running with defualt settings."],
          output := some t,
          nativeCalls := s.nativeCalls ++ [.runBeepop] })) := by
  constructor
  · intro hw
    have hwf : (warnIfNoParams s).weather_file = none := by rw [warnIfNoParams_weather, hw]
    simp only [run_model]
    rw [if_pos hwf]
  · intro w t hw ha hpf hp hr
    have hcond : s.parameter_file = none ∧ s.parameters = PyVal.pynone := ⟨hpf, hp⟩
    simp only [run_model, warnIfNoParams, if_pos hcond]
    simp [hw, ha, hr]

/-- Claim C1 witness: concrete instantiations of both halves on env1. -/
theorem run_model_weather_precondition_witness :
    run_model env1 st0 =
      (.error (.runtimeError "Weather must be set before running BeePop+!"),
       warnIfNoParams st0) ∧
    run_model env1 stWeather =
      (.ok tbl1, { stWeather with
        stdout := stWeather.stdout ++
          ["No parameters have been set. Running with defualt settings."],
        output := some tbl1,
        nativeCalls := stWeather.nativeCalls ++ [.runBeepop] }) :=
  ⟨(run_model_weather_precondition env1 st0).1 rfl,
   (run_model_weather_precondition env1 stWeather).2 "weather.csv" tbl1 rfl rfl rfl rfl rfl⟩

/-- Claim C3: evaluating the constructor at the failing inputs. A non-None
parameter_file or residue_file argument makes construction raise
AttributeError, because the source passes the never-assigned attribute
self.parameter_file (resp. self.residue_file) to the load call instead of
the constructor argument, even though the named files exist; the
weather_file argument is forwarded to load_weather correctly. -/
theorem constructor_file_arguments_bug :
    mk env1 (some "/opt/custom/beepop.so") (some "params.txt") none none false =
      .error (.attributeError "parameter_file") ∧
    mk env1 (some "/opt/custom/beepop.so") none none (some "residues.csv") false =
      .error (.attributeError "residue_file") ∧
    mk env1 (some "/opt/custom/beepop.so") none (some "weather.csv") none false =
      .ok { lib_file := "/opt/custom/beepop.so", verbose := false, beepopAlive := true,
            parameters := .pynone, parameter_file := none,
            weather_file := some "weather.csv", residue_file := none, output := none,
            nativeCalls := [.openLib "/opt/custom/beepop.so", .loadWeather "weather.csv"],
            stdout := [] } :=
  ⟨rfl, rfl, rfl⟩

/-- Claim C5: every load operation called with a path that is not an
existing file raises the corresponding FileNotFoundError and returns the
state completely unchanged: no stored path is modified and no call into the
native library is made. -/
theorem load_missing_file_no_effect (env : Env) (f : String) (s : St)
    (h : env.files.contains f = false) :
    load_weather env f s =
      (.error (.fileNotFoundError ("Weather file does not exist at path: " ++ f ++ "!")), s) ∧
    load_parameter_file env f s =
      (.error (.fileNotFoundError ("Paramter file does not exist at path: " ++ f ++ "!")), s) ∧
    load_residue_file env f s =
      (.error (.fileNotFoundError ("Residue file does not exist at path: " ++ f ++ "!")), s) := by
  refine ⟨?_, ?_, ?_⟩
  · unfold load_weather
    rw [h]
    simp
  · unfold load_parameter_file
    rw [h]
    simp
  · unfold load_residue_file
    rw [h]
    simp

/-- Claim C5 witness: a missing path on the concrete environment. -/
theorem load_missing_file_no_effect_witness :
    load_weather env1 "missing.csv" st0 =
      (.error (.fileNotFoundError
        ("Weather file does not exist at path: " ++ "missing.csv" ++ "!")), st0) :=
  (load_missing_file_no_effect env1 "missing.csv" st0 rfl).1

/-- Claim C9: when the native run entry point fails, run_model propagates an
error and the stored output keeps its previous value, so a prior run's
output stays retrievable and a handle without output still has none. -/
theorem run_model_failure_keeps_output (env : Env) (s : St) (m : String)
    (h : env.runResult = .error m) :
    isErr (run_model env s).1 = true ∧ (run_model env s).2.output = s.output := by
  have hout := warnIfNoParams_output s
  simp only [run_model]
  split
  · exact ⟨rfl, hout⟩
  · split
    · exact ⟨rfl, hout⟩
    · rw [h]
      exact ⟨rfl, by simp [hout]⟩

/-- Claim C9 witness: a failing native run on a state holding a previous
output leaves that output in place. -/
theorem run_model_failure_keeps_output_witness :
    isErr (run_model envFail stRan).1 = true ∧
    (run_model envFail stRan).2.output = stRan.output :=
  run_model_failure_keeps_output envFail stRan "beepop run failed" rfl

/-- Claim C10: with an output present, get_output returns the JSON text
exactly when the format argument equals the string json, and the table
itself for every other format value, raising no error about an unknown
format. -/
theorem get_output_format_dispatch (s : St) (t : Table) (fmt : String)
    (h : s.output = some t) :
    get_output fmt s =
      ((if fmt = "json" then .ok (.jsonStr (jsonDumps t)) else .ok (.table t)), s) := by
  unfold get_output
  rw [h]
  show (if fmt = "json" then ((Except.ok (OutVal.jsonStr (jsonDumps t)) : Except PyErr OutVal), s)
        else (Except.ok (OutVal.table t), s)) =
    ((if fmt = "json" then Except.ok (OutVal.jsonStr (jsonDumps t))
      else Except.ok (OutVal.table t)), s)
  split <;> rfl

/-- Claim C2 counterexample: 32-bit Linux is not an unsupported pair for the
code. Construction with no explicit library path succeeds there when the
bundled artifact exists (selecting the Linux artifact with no architecture
check), and with an empty filesystem it fails with the library
FileNotFoundError, not an unsupported-platform NotImplementedError. -/
theorem platform_dispatch_linux32_counterexample :
    mk envLinux32 none none none none false = .ok st0 ∧
    mk envLinux32NoFiles none none none none false =
      .error (.fileNotFoundError libNotFoundMsg) :=
  ⟨rfl, rfl⟩

/-- Claim C2 amended: without an explicit library path, 64-bit Windows
selects the bundled dll and Linux selects the bundled .so with no
architecture check at all; 32-bit Windows and any OS other than Windows and
Linux fail with NotImplementedError whose result does not depend on the
filesystem contents. -/
theorem platform_dispatch_amended (env : Env) (pf wf rf : Option String) (v : Bool) :
    (env.osName = "Windows" → env.arch ≠ "32bit" →
      resolve_lib_file env none v = .ok (joinPath env.parent "lib/beepop_win64.dll", [])) ∧
    (env.osName = "Linux" →
      resolve_lib_file env none v =
        .ok (joinPath env.parent "lib/beepop_linux.so",
             if v then [linuxVerboseMsg] else [])) ∧
    (env.osName = "Windows" → env.arch = "32bit" → ∀ fs : List String,
      mk { env with files := fs } none pf wf rf v =
        .error (.notImplementedError
          "Windows x86 (32-bit) is not supported by BeePop+. Please run on an x64 platform.")) ∧
    (env.osName ≠ "Windows" → env.osName ≠ "Linux" → ∀ fs : List String,
      mk { env with files := fs } none pf wf rf v =
        .error (.notImplementedError "BeePop+ only supports Windows and Linux.")) := by
  refine ⟨?_, ?_, ?_, ?_⟩
  · intro ho ha
    unfold resolve_lib_file
    simp [ho, ha]
  · intro ho
    unfold resolve_lib_file
    simp [ho]
  · intro ho ha fs
    unfold mk resolve_lib_file
    simp [ho, ha]
  · intro h1 h2 fs
    unfold mk resolve_lib_file
    simp [h1, h2]

/-- Claim C2 amended witness: concrete instantiations of all four parts. -/
theorem platform_dispatch_amended_witness :
    resolve_lib_file envWin64 none false = .ok (joinPath envWin64.parent "lib/beepop_win64.dll", []) ∧
    resolve_lib_file env1 none false =
      .ok (joinPath env1.parent "lib/beepop_linux.so", if false then [linuxVerboseMsg] else []) ∧
    mk { envWin32 with files := envWin32.files } none none none none false =
      .error (.notImplementedError
        "Windows x86 (32-bit) is not supported by BeePop+. Please run on an x64 platform.") ∧
    mk { envDarwin with files := envDarwin.files } none none none none false =
      .error (.notImplementedError "BeePop+ only supports Windows and Linux.") :=
  ⟨(platform_dispatch_amended envWin64 none none none false).1 rfl (by decide),
   (platform_dispatch_amended env1 none none none false).2.1 rfl,
   (platform_dispatch_amended envWin32 none none none false).2.2.1 rfl rfl envWin32.files,
   (platform_dispatch_amended envDarwin none none none false).2.2.2 (by decide) (by decide)
     envDarwin.files⟩

/-- Claim C4 counterexample: after exit() the handle is closed, yet
get_output still succeeds and returns the cached run output, so not every
method call after exit() fails. -/
theorem post_exit_get_output_succeeds :
    (exit stRan).1 = .ok () ∧ (exit stRan).2 = stClosed ∧
    stClosed.beepopAlive = false ∧
    (get_output "DataFrame" stClosed).1 = .ok (.table tbl1) :=
  ⟨rfl, rfl, rfl, rfl⟩

/-- Claim C4 amended: after exit() every operation that dereferences the
deleted native handle fails (the loads, run, parameter accessors, logs,
version and a second exit all return errors), while get_output reads only
the cached output attribute and still succeeds when a prior run's output is
present. -/
theorem post_exit_behavior (env : Env) (s : St) (p : PyVal) (f fmt : String) (t : Table)
    (h : s.beepopAlive = false) :
    isErr (set_parameters env p s).1 = true ∧
    isErr (get_parameters env s).1 = true ∧
    isErr (load_weather env f s).1 = true ∧
    isErr (load_parameter_file env f s).1 = true ∧
    isErr (load_residue_file env f s).1 = true ∧
    isErr (run_model env s).1 = true ∧
    isErr (get_error_log env s).1 = true ∧
    isErr (get_info_log env s).1 = true ∧
    isErr (version env s).1 = true ∧
    isErr (exit s).1 = true ∧
    (s.output = some t → (get_output fmt s).1 =
      .ok (if fmt = "json" then .jsonStr (jsonDumps t) else .table t)) := by
  have halive : (warnIfNoParams s).beepopAlive = false := by rw [warnIfNoParams_alive, h]
  refine ⟨?_, ?_, ?_, ?_, ?_, ?_, ?_, ?_, ?_, ?_, ?_⟩
  · unfold set_parameters
    split <;> rfl
  · unfold get_parameters
    rw [if_pos h]
    rfl
  · unfold load_weather
    split
    · rfl
    · simp [h, isErr]
  · unfold load_parameter_file
    split
    · rfl
    · simp [h, isErr]
  · unfold load_residue_file
    split
    · rfl
    · simp [h, isErr]
  · simp only [run_model]
    split <;> rfl
  · unfold get_error_log
    rw [if_pos h]
    rfl
  · unfold get_info_log
    rw [if_pos h]
    rfl
  · unfold version
    rw [if_pos h]
    rfl
  · unfold exit
    rw [if_pos h]
    rfl
  · intro ho
    unfold get_output
    rw [ho]
    show (if fmt = "json" then ((Except.ok (OutVal.jsonStr (jsonDumps t)) : Except PyErr OutVal), s)
          else (Except.ok (OutVal.table t), s)).1 =
      .ok (if fmt = "json" then .jsonStr (jsonDumps t) else .table t)
    split <;> rfl

/-- Claim C4 amended witness: the closed concrete state. -/
theorem post_exit_behavior_witness :
    isErr (run_model env1 stClosed).1 = true ∧
    (get_output "DataFrame" stClosed).1 =
      .ok (if ("DataFrame" : String) = "json" then OutVal.jsonStr (jsonDumps tbl1)
           else .table tbl1) := by
  have h := post_exit_behavior env1 stClosed PyVal.pynone "weather.csv" "DataFrame" tbl1 rfl
  exact ⟨h.2.2.2.2.2.1, h.2.2.2.2.2.2.2.2.2.2 rfl⟩

/-- Claim C6 counterexample: set_parameters called with None does not raise
TypeError; the None is forwarded to the native set_parameters call. -/
theorem set_parameters_none_counterexample :
    set_parameters env1 PyVal.pynone st0 =
      (.ok (), { st0 with parameters := env1.setParamsResult PyVal.pynone,
                          nativeCalls := st0.nativeCalls ++ [.setParameters PyVal.pynone] }) ∧
    isErr (set_parameters env1 PyVal.pynone st0).1 = false :=
  ⟨rfl, rfl⟩

/-- Claim C6 amended: every non-None argument that is not a dict makes
set_parameters raise TypeError before any call into the native library (the
state, including the native-call trace, is returned unchanged); None is not
rejected but forwarded to the native layer. -/
theorem set_parameters_typeerror (env : Env) (v : PyVal) (s : St)
    (h1 : v ≠ PyVal.pynone) (h2 : v.isDictB = false) :
    set_parameters env v s =
      (.error (.typeError "parameters must be a named dictionary of BeePop+ parameters"), s) := by
  unfold set_parameters
  rw [if_pos ⟨h1, h2⟩]

/-- Claim C6 amended witness: a list argument raises TypeError. -/
theorem set_parameters_typeerror_witness :
    set_parameters env1 (PyVal.pylist ["not", "a", "dict"]) st0 =
      (.error (.typeError "parameters must be a named dictionary of BeePop+ parameters"), st0) :=
  set_parameters_typeerror env1 (PyVal.pylist ["not", "a", "dict"]) st0 (by decide) rfl

theorem zip_flags_filter (l : List String) (p : String → Bool) :
    ((l.zip (l.map p)).filter (fun x => x.2)).map Prod.fst = l.filter p := by
  induction l with
  | nil => simp
  | cons a l ih => by_cases hp : p a <;> simp [hp, ih]

/-- Claim C7: when a run output is present and the requested column list
contains at least one name that is not an output column, plot_output raises
an IndexError whose message names exactly the invalid columns, leaving the
state unchanged; it never drops a bad name and plots the rest. -/
theorem plot_output_invalid_columns (s : St) (t : Table) (cols : List String)
    (h1 : s.output = some t)
    (h2 : cols.filter (fun c => !(columnsOf t).contains c) ≠ []) :
    plot_output cols s =
      (.error (.indexError ("The column name " ++
        pyReprStrList (cols.filter (fun c => !(columnsOf t).contains c)) ++
        " is not a valid output column.")), s) := by
  have hany : (cols.map (fun col => !(columnsOf t).contains col)).any (fun b => b) = true := by
    rw [Ne, List.filter_eq_nil_iff] at h2
    push_neg at h2
    obtain ⟨a, ha, hpa⟩ := h2
    exact List.any_eq_true.mpr
      ⟨!(columnsOf t).contains a, List.mem_map_of_mem _ ha, by simpa using hpa⟩
  unfold plot_output
  rw [h1]
  simp only [hany, if_true, zip_flags_filter]

/-- Claim C7 witness: a single bad column name on the concrete run state. -/
theorem plot_output_invalid_columns_witness :
    plot_output ["NotARealColumn"] stRan =
      (.error (.indexError ("The column name " ++
        pyReprStrList (["NotARealColumn"].filter
          (fun c => !(columnsOf tbl1).contains c)) ++
        " is not a valid output column.")), stRan) :=
  plot_output_invalid_columns stRan tbl1 ["NotARealColumn"] rfl (by decide)

/-- Claim C8: with a run output present, get_output with the json format
returns the serialized text of the output's column-to-values mapping, and
deserializing that text yields exactly the same mapping: serialization
followed by deserialization is the identity. -/
theorem get_output_json_roundtrip (s : St) (t : Table) (h : s.output = some t) :
    (get_output "json" s).1 = .ok (.jsonStr (jsonDumps t)) ∧
    jsonLoads (jsonDumps t) = some t := by
  constructor
  · unfold get_output
    rw [h]
    show (if ("json" : String) = "json"
          then ((Except.ok (OutVal.jsonStr (jsonDumps t)) : Except PyErr OutVal), s)
          else (Except.ok (OutVal.table t), s)).1 = .ok (.jsonStr (jsonDumps t))
    rw [if_pos rfl]
  · exact jsonLoads_jsonDumps t

/-- Claim C8 witness: the concrete run output round-trips. -/
theorem get_output_json_roundtrip_witness :
    (get_output "json" stRan).1 = .ok (.jsonStr (jsonDumps tbl1)) ∧
    jsonLoads (jsonDumps tbl1) = some tbl1 :=
  get_output_json_roundtrip stRan tbl1 rfl

/-- Claim C10 witness: the uppercase string JSON is not recognized and
yields the table, while the exact string json yields the serialized text. -/
theorem get_output_format_dispatch_witness :
    get_output "JSON" stRan =
      ((if ("JSON" : String) = "json" then .ok (.jsonStr (jsonDumps tbl1))
        else .ok (.table tbl1)), stRan) ∧
    get_output "json" stRan =
      ((if ("json" : String) = "json" then .ok (.jsonStr (jsonDumps tbl1))
        else .ok (.table tbl1)), stRan) :=
  ⟨get_output_format_dispatch stRan tbl1 "JSON" rfl,
   get_output_format_dispatch stRan tbl1 "json" rfl⟩

end PyBeePopModel
